import Mathlib

/-!
Verification development for the `create-nextpy-app` backend
(`src/backend_folder/main.py`): a FastAPI application exposing
`GET /` and `POST /` on a single path, with a CORS middleware whose
single allowed origin is read from the environment variable
`ALLOWED_URL` at startup.

The Python source is shallowly embedded below: JSON values become an
inductive type, the two route handlers become pure functions, the
framework's body-validation and routing layer becomes an explicit
dispatch function, and reading the environment becomes a function of an
explicit environment `String → Option String`.
-/

/-- A JSON value as produced by Python's `json` parsing inside FastAPI:
`null` ↦ `None`, booleans, numbers, strings, arrays ↦ `list`,
objects ↦ `dict` (insertion-ordered, so modelled as an association list).
JSON numbers that parse to Python floats are outside this model
(floating point is not embedded); integer-valued numbers are `int`. -/
inductive Json where
  | null : Json
  | bool : Bool → Json
  | int : Int → Json
  | str : String → Json
  | arr : List Json → Json
  | obj : List (String × Json) → Json

/-- Lowercase hexadecimal digit, as used by Python string escapes. -/
def hexDigit (n : Nat) : Char :=
  if n < 10 then Char.ofNat (48 + n) else Char.ofNat (87 + n)

/-- Two-digit lowercase hex rendering of a character code below 0x100,
as in Python's `\xNN` escapes. -/
def hex2 (n : Nat) : String :=
  String.mk [hexDigit (n / 16 % 16), hexDigit (n % 16)]

/-- How Python's `repr` escapes one character of a `str`, given the quote
character chosen for the literal: backslash, the quote, `\n`, `\r`, `\t`
are escaped by name; other control characters (below 0x20, and 0x7f) get
`\xNN`; all remaining characters are kept as written.  (Python escapes
non-printable characters above 0x7f as well; those are kept literally
here, a deliberate abstraction that no claim's input reaches.) -/
def escapeChar (q : Char) (c : Char) : String :=
  if c = Char.ofNat 92 then String.mk [Char.ofNat 92, Char.ofNat 92]
  else if c = q then String.mk [Char.ofNat 92, q]
  else if c = Char.ofNat 10 then String.mk [Char.ofNat 92, Char.ofNat 110]
  else if c = Char.ofNat 13 then String.mk [Char.ofNat 92, Char.ofNat 114]
  else if c = Char.ofNat 9 then String.mk [Char.ofNat 92, Char.ofNat 116]
  else if c.toNat < 32 || c.toNat = 127 then
    String.mk [Char.ofNat 92, Char.ofNat 120] ++ hex2 c.toNat
  else String.singleton c

/-- Python's `repr` of a `str`: single quotes by default, switching to
double quotes when the string contains a single quote but no double
quote; characters escaped by `escapeChar`. -/
def pyStrRepr (s : String) : String :=
  let sq := Char.ofNat 39
  let dq := Char.ofNat 34
  let cs := s.toList
  let q := if cs.contains sq && !(cs.contains dq) then dq else sq
  String.singleton q ++ String.join (cs.map (escapeChar q)) ++ String.singleton q

mutual

/-- Python's default textual rendering `str(x)` (= `repr(x)`) of the
value a parsed JSON body becomes: `None` / `True` / `False`, decimal
integers, `repr`-quoted strings, `[x, y]` lists, and `\x7b'k': v\x7d`
dicts in insertion order. This is the rendering the f-string in
`create_item` applies to `item`. -/
def pyRepr : Json → String
  | Json.null => "None"
  | Json.bool true => "True"
  | Json.bool false => "False"
  | Json.int n => toString n
  | Json.str s => pyStrRepr s
  | Json.arr xs => "[" ++ pyReprList xs ++ "]"
  | Json.obj kvs => "\x7b" ++ pyReprPairs kvs ++ "\x7d"

/-- Comma-separated renderings of the elements of a Python list. -/
def pyReprList : List Json → String
  | [] => ""
  | [x] => pyRepr x
  | x :: xs => pyRepr x ++ ", " ++ pyReprList xs

/-- Comma-separated `repr(key): repr(value)` renderings of the items of
a Python dict. -/
def pyReprPairs : List (String × Json) → String
  | [] => ""
  | [(k, v)] => pyStrRepr k ++ ": " ++ pyRepr v
  | (k, v) :: kvs => pyStrRepr k ++ ": " ++ pyRepr v ++ ", " ++ pyReprPairs kvs

end

/-- The GET handler `read_root` of `main.py`: returns the constant dict
`\x7b"message": "This is Get Request from python backend"\x7d`,
serialized by FastAPI as the JSON response body. -/
def read_root : Json :=
  Json.obj [("message", Json.str "This is Get Request from python backend")]

/-- The constant text of the POST response's f-string up to the
interpolation point `\x7bitem\x7d`. -/
def postMsgStart : String :=
  "This is Post Request from python backend and here is response "

/-- The POST handler `create_item` of `main.py`, applied to the parsed
body `item : dict`: returns the dict whose single key `message` maps to
the f-string interpolating `str(item)` (i.e. `pyRepr`) into the
constant template. -/
def create_item (item : List (String × Json)) : Json :=
  Json.obj [("message", Json.str (postMsgStart ++ pyRepr (Json.obj item)))]

/-- HTTP method of a request. -/
inductive Method where
  | GET : Method
  | POST : Method
  | other : String → Method
deriving DecidableEq

/-- An incoming HTTP request as seen by the application: method, path,
headers, query parameters, and the result of parsing the raw body as
JSON (`none` when the body is absent or not valid JSON). -/
structure Request where
  method : Method
  path : String
  headers : List (String × String)
  query : List (String × String)
  body : Option Json

/-- An HTTP response: status code and JSON body. -/
structure Response where
  status : Nat
  body : Json

/-- Modelled from the framework (FastAPI/Starlette, not repository
code): the body of the HTTP 422 response FastAPI produces when request
validation fails, an object under the key `detail` (its exact contents
are abstracted; only its shape matters to the application's contract). -/
def validationErrorBody : Json :=
  Json.obj [("detail", Json.arr [])]

/-- The parsed body when it is a JSON object, as required by the
`item: dict` parameter of `create_item`; `none` when the body is
missing, malformed, or a non-object JSON value. -/
def bodyObject : Option Json → Option (List (String × Json))
  | some (Json.obj kvs) => some kvs
  | _ => none

/-- Request dispatch of the application: the two routes of `main.py`
plus the framework's surrounding behavior (the router matches the path,
then the method; body validation for the `dict`-typed POST parameter
rejects non-object and malformed bodies with 422 before `create_item`
runs; unmatched method or path falls into the router's 405/404
defaults, which no claim relies on). -/
def handle (req : Request) : Response :=
  if req.path = "/" then
    match req.method with
    | Method.GET => { status := 200, body := read_root }
    | Method.POST =>
      match bodyObject req.body with
      | some kvs => { status := 200, body := create_item kvs }
      | none => { status := 422, body := validationErrorBody }
    | Method.other _ =>
      { status := 405, body := Json.obj [("detail", Json.str "Method Not Allowed")] }
  else
    { status := 404, body := Json.obj [("detail", Json.str "Not Found")] }

/-- Python's `os.getenv(name, default)`: the environment's value for
`name`, or `default` when `name` is absent. -/
def os_getenv (env : String → Option String) (name default : String) : String :=
  (env name).getD default

/-- Configuration of the CORS middleware, mirroring the keyword
arguments of `app.add_middleware(CORSMiddleware, ...)`. -/
structure CORSConfig where
  allow_origins : List String
  allow_credentials : Bool
  allow_methods : List String
  allow_headers : List String
deriving DecidableEq

/-- The CORS middleware configuration built once at process start in
`main.py`: origins `[os.getenv("ALLOWED_URL", "http://localhost:3000")]`,
credentials allowed, methods `["*"]`, headers `["*"]`. -/
def corsMiddlewareConfig (env : String → Option String) : CORSConfig :=
  { allow_origins := [os_getenv env "ALLOWED_URL" "http://localhost:3000"]
    allow_credentials := true
    allow_methods := ["*"]
    allow_headers := ["*"] }

/-- Modelled from the framework: CORSMiddleware treats a literal `*`
entry in `allow_methods` as permitting every HTTP method. -/
def allowsMethod (c : CORSConfig) (m : String) : Bool :=
  c.allow_methods.contains "*" || c.allow_methods.contains m

/-- Modelled from the framework: CORSMiddleware treats a literal `*`
entry in `allow_headers` as permitting every request header. -/
def allowsHeader (c : CORSConfig) (h : String) : Bool :=
  c.allow_headers.contains "*" || c.allow_headers.contains h

/-- Whether a JSON value is the application's success envelope: an
object with the single key `message` mapping to a string. -/
def isMessageEnvelope : Json → Bool
  | Json.obj [(k, Json.str _)] => k = "message"
  | _ => false

/-- A batch of requests handled in sequence; the application keeps no
state between requests, so the batch result is the elementwise result. -/
def handleAll (reqs : List Request) : List Response :=
  reqs.map handle

/-- C1: for every valid JSON object supplied as the body, `POST /`
returns HTTP 200 whose body is the success envelope, the message being
the fixed template with Python's canonical rendering of the key-value
mapping substituted in — regardless of headers and query parameters. -/
theorem post_echoes_object (kvs : List (String × Json))
    (headers query : List (String × String)) :
    handle { method := Method.POST, path := "/", headers := headers,
             query := query, body := some (Json.obj kvs) } =
      { status := 200,
        body := Json.obj [("message",
          Json.str (postMsgStart ++ pyRepr (Json.obj kvs)))] } := rfl

/-- C2: every `GET /` request, whatever its headers, query parameters
(or even body), yields HTTP 200 with exactly the constant message
envelope. -/
theorem get_root_constant (headers query : List (String × String))
    (body : Option Json) :
    handle { method := Method.GET, path := "/", headers := headers,
             query := query, body := body } =
      { status := 200,
        body := Json.obj [("message",
          Json.str "This is Get Request from python backend")] } := rfl

/-- C3: on the concrete body `\x7b"a": 1\x7d`, `POST /` returns 200
with the message rendering the echoed object as Python's default dict
representation `\x7b'a': 1\x7d`, single-quoted keys included; the
rendering function is deterministic (it is a function). -/
theorem post_concrete_a1 :
    handle { method := Method.POST, path := "/", headers := [], query := [],
             body := some (Json.obj [("a", Json.int 1)]) } =
      { status := 200,
        body := Json.obj [("message",
          Json.str "This is Post Request from python backend and here is response \x7b\x27a\x27: 1\x7d")] } := rfl

/-- C4: a `POST /` whose body is not a JSON object (array, scalar, or
malformed, i.e. anything `bodyObject` rejects) gets status 422 — a
client error, not 200 — from the validation layer, and the response
body is not the success envelope. -/
theorem post_rejects_non_object (headers query : List (String × String))
    (b : Option Json) (h : bodyObject b = none) :
    (handle { method := Method.POST, path := "/", headers := headers,
              query := query, body := b }).status = 422 ∧
    (handle { method := Method.POST, path := "/", headers := headers,
              query := query, body := b }).status ≠ 200 ∧
    isMessageEnvelope (handle { method := Method.POST, path := "/",
                                headers := headers, query := query,
                                body := b }).body = false := by
  simp only [handle, h]
  exact ⟨rfl, by decide, rfl⟩

/-- Witness for C4 at the concrete non-object body `[]` (a JSON
array). -/
theorem post_rejects_non_object_witness :
    (handle { method := Method.POST, path := "/", headers := [],
              query := [], body := some (Json.arr []) }).status = 422 ∧
    (handle { method := Method.POST, path := "/", headers := [],
              query := [], body := some (Json.arr []) }).status ≠ 200 ∧
    isMessageEnvelope (handle { method := Method.POST, path := "/",
                                headers := [], query := [],
                                body := some (Json.arr []) }).body = false :=
  post_rejects_non_object [] [] (some (Json.arr [])) rfl

/-- C5: when `ALLOWED_URL` is absent from the environment the startup
succeeds with the allowed-origins list silently set to the single
default `http://localhost:3000`; moreover the configuration depends on
the environment only through the one lookup of `ALLOWED_URL`, read once
when the configuration value is built at startup. -/
theorem allowed_url_default (env : String → Option String)
    (h : env "ALLOWED_URL" = none) :
    corsMiddlewareConfig env =
      { allow_origins := ["http://localhost:3000"], allow_credentials := true,
        allow_methods := ["*"], allow_headers := ["*"] } ∧
    ∀ env₂ : String → Option String, env₂ "ALLOWED_URL" = env "ALLOWED_URL" →
      corsMiddlewareConfig env₂ = corsMiddlewareConfig env := by
  constructor
  · simp [corsMiddlewareConfig, os_getenv, h]
  · intro env₂ h₂
    simp [corsMiddlewareConfig, os_getenv, h₂]

/-- Witness for C5 at the empty environment. -/
theorem allowed_url_default_witness :
    corsMiddlewareConfig (fun _ => none) =
      { allow_origins := ["http://localhost:3000"], allow_credentials := true,
        allow_methods := ["*"], allow_headers := ["*"] } :=
  (allowed_url_default (fun _ => none) rfl).1

/-- C6: the CORS policy configured at startup allows exactly the
one-element origin list holding the value of `ALLOWED_URL`, allows
credentials, and allows every HTTP method and every header (via the
wildcard entries). -/
theorem cors_policy (env : String → Option String) (m hd : String) :
    (corsMiddlewareConfig env).allow_origins =
      [os_getenv env "ALLOWED_URL" "http://localhost:3000"] ∧
    (corsMiddlewareConfig env).allow_credentials = true ∧
    allowsMethod (corsMiddlewareConfig env) m = true ∧
    allowsHeader (corsMiddlewareConfig env) hd = true :=
  ⟨rfl, rfl, rfl, rfl⟩

/-- C7: every response value produced by the two handlers is a JSON
object with the single key `message` carrying a string: the constant
string for `read_root`, and the constant template text followed by the
rendering of the received object for `create_item`. -/
theorem response_envelope (item : List (String × Json)) :
    isMessageEnvelope read_root = true ∧
    isMessageEnvelope (create_item item) = true ∧
    read_root = Json.obj [("message",
      Json.str "This is Get Request from python backend")] ∧
    create_item item = Json.obj [("message",
      Json.str (postMsgStart ++ pyRepr (Json.obj item)))] :=
  ⟨rfl, rfl, rfl, rfl⟩

/-- C8: the handlers are stateless and deterministic: in a batch of
requests each response is a function of its own request alone, and two
invocations of `GET /` (resp. of `POST /` with equal parsed bodies)
produce equal responses whatever else differs. -/
theorem handlers_stateless (reqs₁ reqs₂ : List Request) (i : Nat)
    (hi : reqs₁[i]? = reqs₂[i]?)
    (h₁ q₁ h₂ q₂ : List (String × String)) (b₁ b₂ b : Option Json) :
    (handleAll reqs₁)[i]? = (handleAll reqs₂)[i]? ∧
    handle { method := Method.GET, path := "/", headers := h₁,
             query := q₁, body := b₁ } =
      handle { method := Method.GET, path := "/", headers := h₂,
               query := q₂, body := b₂ } ∧
    handle { method := Method.POST, path := "/", headers := h₁,
             query := q₁, body := b } =
      handle { method := Method.POST, path := "/", headers := h₂,
               query := q₂, body := b } := by
  refine ⟨?_, rfl, rfl⟩
  simp only [handleAll, List.getElem?_map, hi]

/-- Witness for C8: a GET request's response in a one-request batch
matches its response in a longer batch agreeing at position 0, and the
concrete invocation equalities hold. -/
theorem handlers_stateless_witness :
    (handleAll [{ method := Method.GET, path := "/", headers := [],
                  query := [], body := none }])[0]? =
      (handleAll [{ method := Method.GET, path := "/", headers := [],
                    query := [], body := none },
                  { method := Method.POST, path := "/", headers := [],
                    query := [], body := some (Json.obj []) }])[0]? ∧
    handle { method := Method.GET, path := "/", headers := [("h", "1")],
             query := [], body := none } =
      handle { method := Method.GET, path := "/", headers := [],
               query := [("q", "2")], body := some Json.null } ∧
    handle { method := Method.POST, path := "/", headers := [("h", "1")],
             query := [], body := some (Json.obj []) } =
      handle { method := Method.POST, path := "/", headers := [],
               query := [("q", "2")], body := some (Json.obj []) } :=
  handlers_stateless
    [{ method := Method.GET, path := "/", headers := [], query := [], body := none }]
    [{ method := Method.GET, path := "/", headers := [], query := [], body := none },
     { method := Method.POST, path := "/", headers := [], query := [],
       body := some (Json.obj []) }]
    0 rfl [("h", "1")] [] [] [("q", "2")] none (some Json.null) (some (Json.obj []))

/-- C9: the default applies only when `ALLOWED_URL` is absent: an
environment that sets it to the empty string yields the allowed-origins
list `[""]`, not the documented default. -/
theorem allowed_url_empty_string (env : String → Option String)
    (h : env "ALLOWED_URL" = some "") :
    (corsMiddlewareConfig env).allow_origins = [""] ∧
    (corsMiddlewareConfig env).allow_origins ≠ ["http://localhost:3000"] := by
  constructor
  · simp [corsMiddlewareConfig, os_getenv, h]
  · simp [corsMiddlewareConfig, os_getenv, h]

/-- Witness for C9 at the environment mapping every name to `""`. -/
theorem allowed_url_empty_string_witness :
    (corsMiddlewareConfig (fun _ => some "")).allow_origins = [""] ∧
    (corsMiddlewareConfig (fun _ => some "")).allow_origins ≠
      ["http://localhost:3000"] :=
  allowed_url_empty_string (fun _ => some "") rfl

/-- C10: `POST /` with the empty JSON object succeeds with 200 and the
message rendering the empty dict as `\x7b\x7d`. -/
theorem post_empty_object :
    handle { method := Method.POST, path := "/", headers := [], query := [],
             body := some (Json.obj []) } =
      { status := 200,
        body := Json.obj [("message",
          Json.str "This is Post Request from python backend and here is response \x7b\x7d")] } := rfl
